import Mathlib

/-!
# Verification of the transformer weather-ingest job

Shallow embedding of `src/main.py` (transformer-weather-ingest). Python
strings are modelled as `List Char`; pandas timestamps as abstract instants
`Nat` together with a rendering function `fmt : Nat → List Char` standing for
`strftime('%Y-%m-%dT%H:%M:%SZ')` / `isoformat`; the Supabase table
`temperature_readings` as a `List TemperatureReading`; exceptions as
`Except` errors. Temperatures are modelled as `Int` (their numeric value
plays no role in any claim).
-/

/-- Embeds Python `ts.split('.')[0]`: the characters of `ts` strictly before
the first `'.'` (the whole list when no dot occurs, but `normalize_timestamp`
only calls it under a dot-presence guard). -/
def splitDotHead : List Char → List Char
  | [] => []
  | c :: cs => if c = '.' then [] else c :: splitDotHead cs

/-- Embeds `normalize_timestamp` from `src/main.py` lines 14–20:
`if '.' in ts: ts = ts.split('.')[0] + 'Z'`
`elif ts.endswith('+00:00'): ts = ts[:-6] + 'Z'`
`return ts`. -/
def normalize_timestamp (ts : List Char) : List Char :=
  if ts.contains '.' then splitDotHead ts ++ ['Z']
  else if ("+00:00".toList).isSuffixOf ts then ts.take (ts.length - 6) ++ ['Z']
  else ts

theorem splitDotHead_eq_takeWhile (ts : List Char) :
    splitDotHead ts = ts.takeWhile (fun c => c ≠ '.') := by
  induction ts with
  | nil => rfl
  | cons c cs ih =>
    by_cases h : c = '.'
    · simp [splitDotHead, List.takeWhile, h]
    · simp [splitDotHead, List.takeWhile, h, ih]

theorem dot_not_mem_splitDotHead (ts : List Char) : '.' ∉ splitDotHead ts := by
  rw [splitDotHead_eq_takeWhile]
  intro hmem
  have := List.takeWhile_prefix (l := ts) (p := fun c => ¬ (c = '.'))
  have hpred := List.mem_takeWhile_imp hmem
  simp at hpred

theorem contains_false_iff {a : Char} {l : List Char} :
    l.contains a = false ↔ a ∉ l := by
  simp [List.contains, List.elem_eq_mem]

theorem suffix_plus_zeros_append_Z (l : List Char) :
    ("+00:00".toList).isSuffixOf (l ++ ['Z']) = false := by
  by_contra h
  rw [Bool.not_eq_false, List.isSuffixOf_iff_suffix] at h
  obtain ⟨t, ht⟩ := h
  have hlast : (t ++ "+00:00".toList).getLast? = some '0' := by
    have heq : t ++ "+00:00".toList = (t ++ ['+', '0', '0', ':', '0']) ++ ['0'] := by
      simp
    rw [heq, List.getLast?_concat]
  have hlast' : (l ++ ['Z']).getLast? = some 'Z' := by
    rw [List.getLast?_concat]
  rw [ht, hlast'] at hlast
  simp at hlast

theorem dot_not_mem_take {n : Nat} {ts : List Char} (h : '.' ∉ ts) :
    '.' ∉ ts.take n := fun hmem => h (List.mem_of_mem_take hmem)

/-- After normalization the result of a rewriting branch (`… ++ ['Z']`)
contains no dot, so re-normalization takes the pass-through branch. -/
theorem normalize_timestamp_append_Z {l : List Char} (h : '.' ∉ l) :
    normalize_timestamp (l ++ ['Z']) = l ++ ['Z'] := by
  have hnotdot : '.' ∉ l ++ ['Z'] := by
    intro hmem
    rcases List.mem_append.mp hmem with h1 | h1
    · exact h h1
    · simp at h1
  rw [normalize_timestamp, contains_false_iff.mpr hnotdot,
    suffix_plus_zeros_append_Z]
  simp

/-- C7: `normalize_timestamp` is idempotent on every character string. -/
theorem c7_normalize_timestamp_idempotent (ts : List Char) :
    normalize_timestamp (normalize_timestamp ts) = normalize_timestamp ts := by
  by_cases hdot : ts.contains '.'
  · have h1 : normalize_timestamp ts = splitDotHead ts ++ ['Z'] := by
      rw [normalize_timestamp, if_pos hdot]
    rw [h1]
    exact normalize_timestamp_append_Z (dot_not_mem_splitDotHead ts)
  · have hco : ts.contains '.' = false := by
      cases h : ts.contains '.' <;> simp_all
    have hmem : '.' ∉ ts := contains_false_iff.mp hco
    by_cases hsuf : ("+00:00".toList).isSuffixOf ts
    · have h1 : normalize_timestamp ts = ts.take (ts.length - 6) ++ ['Z'] := by
        rw [normalize_timestamp, if_neg hdot, if_pos hsuf]
      rw [h1]
      exact normalize_timestamp_append_Z (dot_not_mem_take hmem)
    · have h1 : normalize_timestamp ts = ts := by
        rw [normalize_timestamp, if_neg hdot, if_neg hsuf]
      rw [h1]
      exact h1

/-- C2: the three normalization rules apply in priority order — a dot
(fractional-second separator) triggers truncation before the dot plus `Z`;
otherwise a `+00:00` suffix is replaced by `Z`; otherwise the input passes
through unchanged — together with the spec's three concrete examples. -/
theorem c2_normalize_timestamp_rules :
    (∀ ts : List Char,
      (ts.contains '.' = true →
        normalize_timestamp ts = ts.takeWhile (fun c => c ≠ '.') ++ ['Z']) ∧
      (ts.contains '.' = false → ("+00:00".toList).isSuffixOf ts = true →
        normalize_timestamp ts = ts.take (ts.length - 6) ++ ['Z']) ∧
      (ts.contains '.' = false → ("+00:00".toList).isSuffixOf ts = false →
        normalize_timestamp ts = ts)) ∧
    normalize_timestamp "2024-01-01T00:00:00.123456+00:00".toList =
      "2024-01-01T00:00:00Z".toList ∧
    normalize_timestamp "2024-01-01T00:00:00+00:00".toList =
      "2024-01-01T00:00:00Z".toList ∧
    normalize_timestamp "2024-01-01T00:00:00Z".toList =
      "2024-01-01T00:00:00Z".toList := by
  refine ⟨fun ts => ⟨fun hdot => ?_, fun hdot hsuf => ?_, fun hdot hsuf => ?_⟩,
    by decide, by decide, by decide⟩
  · rw [normalize_timestamp, if_pos hdot, splitDotHead_eq_takeWhile]
  · rw [normalize_timestamp, if_neg (by rw [hdot]; simp), if_pos hsuf]
  · rw [normalize_timestamp, if_neg (by rw [hdot]; simp), if_neg (by rw [hsuf]; simp)]

theorem c2_normalize_timestamp_rules_witness :
    normalize_timestamp "2024-01-01T00:00:00.5+00:00".toList =
      ("2024-01-01T00:00:00.5+00:00".toList.takeWhile (fun c => c ≠ '.')) ++ ['Z'] ∧
    normalize_timestamp "2024-01-01T01:00:00+00:00".toList =
      ("2024-01-01T01:00:00+00:00".toList.take
        ("2024-01-01T01:00:00+00:00".toList.length - 6)) ++ ['Z'] ∧
    normalize_timestamp "2024-01-01T02:00:00Z".toList =
      "2024-01-01T02:00:00Z".toList :=
  ⟨(c2_normalize_timestamp_rules.1 _).1 (by decide),
   (c2_normalize_timestamp_rules.1 _).2.1 (by decide) (by decide),
   (c2_normalize_timestamp_rules.1 _).2.2 (by decide) (by decide)⟩

/-- C10: whenever the input contains a dot, `normalize_timestamp` keeps only
the characters before the first dot and appends `Z`, discarding everything
after the dot — including a non-UTC offset such as `+05:00`, as the second
conjunct shows on a concrete input. -/
theorem c10_normalize_timestamp_truncates_after_dot :
    (∀ ts : List Char, ts.contains '.' = true →
      normalize_timestamp ts = ts.takeWhile (fun c => c ≠ '.') ++ ['Z']) ∧
    normalize_timestamp "2024-01-01T00:00:00.123456+05:00".toList =
      "2024-01-01T00:00:00Z".toList := by
  refine ⟨fun ts hdot => ?_, by decide⟩
  rw [normalize_timestamp, if_pos hdot, splitDotHead_eq_takeWhile]

theorem c10_normalize_timestamp_truncates_after_dot_witness :
    normalize_timestamp "2024-06-15T12:00:00.9+05:00".toList =
      ("2024-06-15T12:00:00.9+05:00".toList.takeWhile (fun c => c ≠ '.')) ++ ['Z'] :=
  c10_normalize_timestamp_truncates_after_dot.1 _ (by decide)

/-!
## The weather DataFrame and the reconciler `filter_to_update`

A pandas DataFrame with columns `time` and `ambient_temperature` is modelled
by parallel lists of abstract instants and temperatures, plus the column-level
timezone-awareness flag `tzAware` (pandas stores one tz per datetime column)
and the optional helper column `iso_time` (`iso_col`). The rendering
`df['time'].dt.strftime('%Y-%m-%dT%H:%M:%SZ')` is an external pandas
operation; it is modelled by an arbitrary function `fmt : Nat → List Char`
applied pointwise, and `tz_localize('UTC')` leaves the rendered wall-clock
text unchanged (it only marks the column tz-aware).
-/

structure WeatherDF where
  times : List Nat
  temps : List Int
  tzAware : Bool
  iso_col : Option (List (List Char))
deriving DecidableEq

/-- Embeds `filter_to_update` from `src/main.py` lines 95–101. The Python
function mutates the DataFrame object passed by the caller (tz-localizes the
`time` column when naive, assigns the `iso_time` column) and returns a
filtered copy from which only the copy's `iso_time` column is dropped; the
result is the pair (mutated input frame, returned filtered frame). The row
predicate `df['iso_time'].isin(existing & missing)` tests the rendered
timestamp against the set intersection. -/
def filter_to_update (fmt : Nat → List Char) (df : WeatherDF)
    (existing_timestamps missing_timestamps : Finset (List Char)) :
    WeatherDF × WeatherDF :=
  let df1 := if df.tzAware then df else { df with tzAware := true }
  let df2 := { df1 with iso_col := some (df1.times.map fmt) }
  let kept := (df2.times.zip df2.temps).filter
    (fun p => decide (fmt p.1 ∈ existing_timestamps ∩ missing_timestamps))
  (df2,
   { times := kept.map Prod.fst, temps := kept.map Prod.snd,
     tzAware := df2.tzAware, iso_col := none })

theorem filter_to_update_snd_rows (fmt : Nat → List Char) (df : WeatherDF)
    (ex miss : Finset (List Char)) :
    ((filter_to_update fmt df ex miss).2.times.zip
        (filter_to_update fmt df ex miss).2.temps) =
      (df.times.zip df.temps).filter (fun p => decide (fmt p.1 ∈ ex ∩ miss)) := by
  have hzip : ∀ l : List (Nat × Int), (l.map Prod.fst).zip (l.map Prod.snd) = l := by
    intro l
    induction l with
    | nil => rfl
    | cons a l ih => simp [ih]
  by_cases htz : df.tzAware <;>
    simp [filter_to_update, htz, hzip]

/-- C1: the filtered frame holds exactly the weather samples whose rendered
timestamp lies in `existingSet ∩ missingSet`, in the input order (the output
row list is the literal `List.filter` of the input rows); and on the spec's
concrete instance — existing = &#123;A,B,C&#125;, missing = &#123;B,C,D&#125;,
samples at A…E — the result is exactly the samples at B and C, in order. -/
theorem c1_filter_to_update_intersection :
    (∀ (fmt : Nat → List Char) (df : WeatherDF) (ex miss : Finset (List Char)),
      ((filter_to_update fmt df ex miss).2.times.zip
          (filter_to_update fmt df ex miss).2.temps) =
        (df.times.zip df.temps).filter (fun p => decide (fmt p.1 ∈ ex ∩ miss))) ∧
    ((filter_to_update (fun n => [(['A', 'B', 'C', 'D', 'E'].getD n 'X')])
        { times := [0, 1, 2, 3, 4], temps := [100, 101, 102, 103, 104],
          tzAware := false, iso_col := none }
        {['A'], ['B'], ['C']} {['B'], ['C'], ['D']}).2.times = [1, 2] ∧
     (filter_to_update (fun n => [(['A', 'B', 'C', 'D', 'E'].getD n 'X')])
        { times := [0, 1, 2, 3, 4], temps := [100, 101, 102, 103, 104],
          tzAware := false, iso_col := none }
        {['A'], ['B'], ['C']} {['B'], ['C'], ['D']}).2.temps = [101, 102]) := by
  refine ⟨filter_to_update_snd_rows, ?_, ?_⟩ <;> rfl

/-- C6 counterexample: `filter_to_update` does not leave the table passed in
unchanged — on a concrete naive-time frame without an `iso_time` column, the
frame after the call differs from the frame before it (it has gained the
`iso_time` column and a tz-aware time column). -/
theorem c6_filter_to_update_not_pure_counterexample :
    (filter_to_update (fun _ => ['T'])
        { times := [0], temps := [5], tzAware := false, iso_col := none }
        ∅ ∅).1 ≠
      { times := [0], temps := [5], tzAware := false, iso_col := none } := by
  decide

/-- C6 amended: `filter_to_update` reads and writes no external state and its
result is a function of its arguments alone, but it mutates the table passed
in: after the call the caller's frame has the same `time` instants and
temperatures, is tz-aware, and carries an added `iso_time` column holding the
rendered timestamps. -/
theorem c6_filter_to_update_frame (fmt : Nat → List Char) (df : WeatherDF)
    (ex miss : Finset (List Char)) :
    (filter_to_update fmt df ex miss).1.times = df.times ∧
    (filter_to_update fmt df ex miss).1.temps = df.temps ∧
    (filter_to_update fmt df ex miss).1.tzAware = true ∧
    (filter_to_update fmt df ex miss).1.iso_col = some (df.times.map fmt) := by
  by_cases htz : df.tzAware <;> simp [filter_to_update, htz]

/-!
## The persisted store and the existing/missing timestamp queries

A row of the `temperature_readings` table. The `timestamp` column is the
store's serialized ISO-8601 string; `ambient_temperature` is nullable.
-/

structure TemperatureReading where
  transformer_id : Nat
  timestamp : List Char
  ambient_temperature : Option Int
deriving DecidableEq

/-- Embeds the batching loop `for i in range(0, len(iso_times), batch_size)`
with `batch_size = 50`: successive chunks `iso_times[i:i+50]`. -/
def batches50 {α : Type} : List α → List (List α)
  | [] => []
  | a :: l => ((a :: l).take 50) :: batches50 ((a :: l).drop 50)
termination_by l => l.length
decreasing_by simp [List.length_drop]; omega

theorem batches50_flatten {α : Type} : ∀ l : List α, (batches50 l).flatten = l
  | [] => by simp [batches50]
  | a :: l => by
    rw [batches50, List.flatten_cons, batches50_flatten ((a :: l).drop 50),
      List.take_append_drop]
termination_by l => l.length
decreasing_by simp [List.length_drop]; omega

/-- Embeds `fetch_existing_timestamps` from `src/main.py` lines 31–50: the
candidate timestamps are rendered to ISO strings (the
`tz_localize/isoformat/replace` comprehension, modelled by `fmt`), then for
each batch of 50 the store rows with this `transformer_id` whose raw
`timestamp` is in the batch are selected, and each returned timestamp is
normalized and added to the accumulating set. -/
def fetch_existing_timestamps (store : List TemperatureReading)
    (fmt : Nat → List Char) (transformer_id : Nat) (timestamps : List Nat) :
    Finset (List Char) :=
  let iso_times := timestamps.map fmt
  (batches50 iso_times).foldl
    (fun existing batch =>
      ((store.filter (fun r =>
          decide (r.transformer_id = transformer_id ∧ r.timestamp ∈ batch))).map
        (fun r => normalize_timestamp r.timestamp)).foldl
        (fun s ts => insert ts s) existing)
    ∅

/-- Embeds `fetch_missing_temperature_readings` from `src/main.py` lines
53–73: identical to `fetch_existing_timestamps` except for the additional
`.is_("ambient_temperature", None)` predicate on the select. -/
def fetch_missing_temperature_readings (store : List TemperatureReading)
    (fmt : Nat → List Char) (transformer_id : Nat) (timestamps : List Nat) :
    Finset (List Char) :=
  let iso_times := timestamps.map fmt
  (batches50 iso_times).foldl
    (fun missing batch =>
      ((store.filter (fun r =>
          decide (r.transformer_id = transformer_id ∧ r.timestamp ∈ batch ∧
            r.ambient_temperature = none))).map
        (fun r => normalize_timestamp r.timestamp)).foldl
        (fun s ts => insert ts s) missing)
    ∅

theorem foldl_insert_mem (l : List (List Char)) (s : Finset (List Char))
    (x : List Char) :
    (x ∈ l.foldl (fun s ts => insert ts s) s) ↔ x ∈ s ∨ x ∈ l := by
  induction l generalizing s with
  | nil => simp
  | cons a l ih =>
    rw [List.foldl_cons, ih]
    simp [Finset.mem_insert]
    tauto

theorem mem_foldl_batch_insert (hits : List (List Char) → List (List Char))
    (bs : List (List (List Char))) (s : Finset (List Char)) (x : List Char) :
    (x ∈ bs.foldl
        (fun s b => (hits b).foldl (fun s ts => insert ts s) s) s) ↔
      x ∈ s ∨ ∃ b ∈ bs, x ∈ hits b := by
  induction bs generalizing s with
  | nil => simp
  | cons b bs ih =>
    rw [List.foldl_cons, ih, foldl_insert_mem]
    simp only [List.mem_cons]
    constructor
    · rintro ((h | h) | ⟨b', hb', h⟩)
      · exact Or.inl h
      · exact Or.inr ⟨b, Or.inl rfl, h⟩
      · exact Or.inr ⟨b', Or.inr hb', h⟩
    · rintro (h | ⟨b', (rfl | hb'), h⟩)
      · exact Or.inl (Or.inl h)
      · exact Or.inl (Or.inr h)
      · exact Or.inr ⟨b', hb', h⟩

theorem mem_batches50 {α : Type} (l : List α) (t : α) :
    (t ∈ l) ↔ ∃ b ∈ batches50 l, t ∈ b := by
  conv_lhs => rw [← batches50_flatten l]
  exact List.mem_flatten

theorem mem_fetch_existing_timestamps (store : List TemperatureReading)
    (fmt : Nat → List Char) (tid : Nat) (tss : List Nat) (x : List Char) :
    (x ∈ fetch_existing_timestamps store fmt tid tss) ↔
      ∃ r ∈ store, r.transformer_id = tid ∧ r.timestamp ∈ tss.map fmt ∧
        normalize_timestamp r.timestamp = x := by
  unfold fetch_existing_timestamps
  rw [mem_foldl_batch_insert (fun batch =>
    ((store.filter (fun r =>
        decide (r.transformer_id = tid ∧ r.timestamp ∈ batch))).map
      (fun r => normalize_timestamp r.timestamp)))]
  simp only [Finset.not_mem_empty, false_or, List.mem_map, List.mem_filter,
    decide_eq_true_eq]
  constructor
  · rintro ⟨b, hbmem, r, ⟨hrstore, htid, htsb⟩, hnorm⟩
    exact ⟨r, hrstore, htid,
      List.mem_map.mp ((mem_batches50 _ _).mpr ⟨b, hbmem, htsb⟩), hnorm⟩
  · rintro ⟨r, hrstore, htid, htsmap, hnorm⟩
    obtain ⟨b, hbmem, htsb⟩ := (mem_batches50 _ _).mp (List.mem_map.mpr htsmap)
    exact ⟨b, hbmem, r, ⟨hrstore, htid, htsb⟩, hnorm⟩

theorem mem_fetch_missing_temperature_readings (store : List TemperatureReading)
    (fmt : Nat → List Char) (tid : Nat) (tss : List Nat) (x : List Char) :
    (x ∈ fetch_missing_temperature_readings store fmt tid tss) ↔
      ∃ r ∈ store, r.transformer_id = tid ∧ r.timestamp ∈ tss.map fmt ∧
        r.ambient_temperature = none ∧ normalize_timestamp r.timestamp = x := by
  unfold fetch_missing_temperature_readings
  rw [mem_foldl_batch_insert (fun batch =>
    ((store.filter (fun r =>
        decide (r.transformer_id = tid ∧ r.timestamp ∈ batch ∧
          r.ambient_temperature = none))).map
      (fun r => normalize_timestamp r.timestamp)))]
  simp only [Finset.not_mem_empty, false_or, List.mem_map, List.mem_filter,
    decide_eq_true_eq]
  constructor
  · rintro ⟨b, hbmem, r, ⟨hrstore, htid, htsb, hnull⟩, hnorm⟩
    exact ⟨r, hrstore, htid,
      List.mem_map.mp ((mem_batches50 _ _).mpr ⟨b, hbmem, htsb⟩), hnull, hnorm⟩
  · rintro ⟨r, hrstore, htid, htsmap, hnull, hnorm⟩
    obtain ⟨b, hbmem, htsb⟩ := (mem_batches50 _ _).mp (List.mem_map.mpr htsmap)
    exact ⟨b, hbmem, r, ⟨hrstore, htid, htsb, hnull⟩, hnorm⟩

theorem filter_to_update_inter_congr (fmt : Nat → List Char) (df : WeatherDF)
    {s₁ t₁ s₂ t₂ : Finset (List Char)} (h : s₁ ∩ t₁ = s₂ ∩ t₂) :
    filter_to_update fmt df s₁ t₁ = filter_to_update fmt df s₂ t₂ := by
  simp only [filter_to_update, h]

/-- C9: for a fixed store state the missing-ambient query result is a subset
of the existing-rows query result (the missing query is the existing query
with one extra null filter); hence `existing ∩ missing = missing` and the
reconciler behaves as if given the missing set on both sides. -/
theorem c9_missing_subset_existing (store : List TemperatureReading)
    (fmt fmtD : Nat → List Char) (tid : Nat) (tss : List Nat) (df : WeatherDF) :
    fetch_missing_temperature_readings store fmt tid tss ⊆
      fetch_existing_timestamps store fmt tid tss ∧
    fetch_existing_timestamps store fmt tid tss ∩
        fetch_missing_temperature_readings store fmt tid tss =
      fetch_missing_temperature_readings store fmt tid tss ∧
    filter_to_update fmtD df (fetch_existing_timestamps store fmt tid tss)
        (fetch_missing_temperature_readings store fmt tid tss) =
      filter_to_update fmtD df (fetch_missing_temperature_readings store fmt tid tss)
        (fetch_missing_temperature_readings store fmt tid tss) := by
  have hsub : fetch_missing_temperature_readings store fmt tid tss ⊆
      fetch_existing_timestamps store fmt tid tss := by
    intro x hx
    rw [mem_fetch_missing_temperature_readings] at hx
    rw [mem_fetch_existing_timestamps]
    obtain ⟨r, hrstore, htid, htsmap, _, hnorm⟩ := hx
    exact ⟨r, hrstore, htid, htsmap, hnorm⟩
  have hinter := Finset.inter_eq_right.mpr hsub
  exact ⟨hsub, hinter,
    filter_to_update_inter_congr fmtD df (by rw [hinter, Finset.inter_self])⟩

/-!
## The writer and the write phase
-/

/-- A row of `final_df` in `main`: a reconciled weather sample tagged with
its transformer id. -/
structure WriteRow where
  transformer_id : Nat
  time : Nat
  ambient_temperature : Int
deriving DecidableEq

/-- Embeds `update_ambient_temperature` from `src/main.py` lines 104–121:
the store update matches rows on `(transformer_id, timestamp)` equality with
the `strftime('%Y-%m-%dT%H:%M:%SZ')` rendering of the row's time, sets their
`ambient_temperature`, and the response carries the updated rows
(`response.data`); the function returns the new store state and the boolean
`response.data and len(response.data) > 0`. -/
def update_ambient_temperature (fmt : Nat → List Char)
    (store : List TemperatureReading) (row : WriteRow) :
    List TemperatureReading × Bool :=
  let ts_str := fmt row.time
  let hit := fun r : TemperatureReading =>
    decide (r.transformer_id = row.transformer_id ∧ r.timestamp = ts_str)
  let store' := store.map (fun r =>
    if hit r then { r with ambient_temperature := some row.ambient_temperature }
    else r)
  let data := (store.filter hit).map (fun r =>
    { r with ambient_temperature := some row.ambient_temperature })
  (store', decide (0 < data.length))

/-- Embeds the write phase of `main` (`src/main.py` lines 172–180): each row
is handed to a per-row step inside `try`/`except`; the step returns the
store state after the attempt and `some b` for a normal return (`b` the
writer's success flag) or `none` when the attempt raised (the `except` arm
logs and falls through). The loop returns the final store state and
`update_count`, which increments exactly on `some true`. -/
def writeLoop
    (step : WriteRow → List TemperatureReading →
      List TemperatureReading × Option Bool) :
    List TemperatureReading → List WriteRow → List TemperatureReading × Nat
  | store, [] => (store, 0)
  | store, row :: rest =>
    let res := step row store
    let tail := writeLoop step res.1 rest
    (tail.1, (match res.2 with | some true => 1 | _ => 0) + tail.2)

/-- The non-raising instantiation of the per-row step: a normal call of the
writer, as `main` performs when the store client does not raise. -/
def writerStep (fmt : Nat → List Char) (row : WriteRow)
    (store : List TemperatureReading) :
    List TemperatureReading × Option Bool :=
  let res := update_ambient_temperature fmt store row
  (res.1, some res.2)

/-- C4: the writer returns `true` exactly when the store holds a row matching
`(transformer_id, rendered timestamp)` — zero matched rows give the failure
value `false`, not an exception — and the write phase never halts early: its
result on `xs ++ ys` is the result of processing all of `xs` (successes,
failures and raised attempts alike) followed by all of `ys`. -/
theorem c4_update_ambient_temperature_semantics :
    (∀ (fmt : Nat → List Char) (store : List TemperatureReading) (row : WriteRow),
      ((update_ambient_temperature fmt store row).2 = true ↔
        ∃ r ∈ store, r.transformer_id = row.transformer_id ∧
          r.timestamp = fmt row.time)) ∧
    (∀ (step : WriteRow → List TemperatureReading →
        List TemperatureReading × Option Bool)
      (store : List TemperatureReading) (xs ys : List WriteRow),
      writeLoop step store (xs ++ ys) =
        ((writeLoop step (writeLoop step store xs).1 ys).1,
         (writeLoop step store xs).2 +
           (writeLoop step (writeLoop step store xs).1 ys).2)) := by
  constructor
  · intro fmt store row
    simp only [update_ambient_temperature, decide_eq_true_eq]
    rw [List.length_map, List.length_pos_iff_exists_mem]
    constructor
    · rintro ⟨r, hr⟩
      rw [List.mem_filter, decide_eq_true_eq] at hr
      exact ⟨r, hr.1, hr.2⟩
    · rintro ⟨r, hrstore, hmatch⟩
      exact ⟨r, List.mem_filter.mpr ⟨hrstore, decide_eq_true_eq.mpr hmatch⟩⟩
  · intro step store xs ys
    induction xs generalizing store with
    | nil => simp [writeLoop]
    | cons row rest ih =>
      simp only [List.cons_append, writeLoop, List.append_eq, ih, Nat.add_assoc]

/-!
## The weather fetcher

The HTTP layer is modelled at the boundary of the parsed response: the
status code and the value of `r.json().get('hourly')`, which is either
absent (`none`, the JSON object has no `hourly` key) or an object whose
`time` and `temperature_2m` keys may each be present or absent. The string
parsing `pd.to_datetime` is modelled by a parameter `to_datetime`; the
parsed column is tz-naive (`tzAware := false`), matching
`pd.to_datetime` on naive ISO strings. `Except` errors model raised Python
exceptions.
-/

structure HourlyData where
  time : Option (List (List Char))
  temperature_2m : Option (List Int)
deriving DecidableEq

structure WeatherResponse where
  status_code : Nat
  hourly : Option HourlyData
deriving DecidableEq

/-- Embeds `fetch_weather` from `src/main.py` lines 76–92. A non-200 status
returns `none`. Otherwise `data = r.json().get('hourly')` is bound and the
debug line `print("Keys in hourly data:", data.keys())` runs *before* the
`if not data or 'time' not in data or 'temperature_2m' not in data` guard:
when `hourly` is absent, `data` is `None` and `data.keys()` raises
`AttributeError`, modelled as the first `Except.error`. The guard then maps
a missing `time` or `temperature_2m` key to `none`. `pd.DataFrame` raises
`ValueError` when the two parallel arrays differ in length, modelled as the
second `Except.error`. -/
def fetch_weather (to_datetime : List Char → Nat) (r : WeatherResponse) :
    Except (List Char) (Option WeatherDF) :=
  if r.status_code ≠ 200 then .ok none
  else
    match r.hourly with
    | none => .error "AttributeError: NoneType object has no attribute keys".toList
    | some data =>
      match data.time, data.temperature_2m with
      | some times, some temps =>
        if times.length = temps.length then
          .ok (some { times := times.map to_datetime, temps := temps,
                      tzAware := false, iso_col := none })
        else .error "ValueError: All arrays must be of the same length".toList
      | _, _ => .ok none

/-- C3 (code behavior at the failing input): a 200 response whose JSON body
has no `hourly` object makes `fetch_weather` raise (the debug line
dereferences `data` before the missing-field guard), instead of returning
the "no data" result the claim requires; non-success responses and present
`hourly` objects lacking `time` or `temperature_2m` do return "no data". -/
theorem c3_fetch_weather_raises_on_missing_hourly :
    fetch_weather (fun _ => 0) { status_code := 200, hourly := none } =
      .error "AttributeError: NoneType object has no attribute keys".toList ∧
    fetch_weather (fun _ => 0) { status_code := 500, hourly := none } = .ok none ∧
    fetch_weather (fun _ => 0)
      { status_code := 200,
        hourly := some { time := none, temperature_2m := some [1] } } =
      .ok none ∧
    fetch_weather (fun _ => 0)
      { status_code := 200,
        hourly := some { time := some [['t']], temperature_2m := none } } =
      .ok none := ⟨rfl, rfl, rfl, rfl⟩

/-!
## The orchestrator `main`

The per-transformer loop of `main` (`src/main.py` lines 126–170). The three
I/O operations inside the loop body — `fetch_weather`, the existing-set
query, the missing-set query — are parameters returning `Except Unit`:
`.error ()` models a raised Python exception (a `requests` network error, a
Supabase client error), `.ok` a normal return. The loop body has no
`try`/`except`, so in the embedding an `.error` propagates through the whole
run (`Except.bind`). Skips (`continue`) contribute the empty row list.
-/

structure Location where
  lat : Option Int
  lng : Option Int
deriving DecidableEq

structure Transformer where
  id : Nat
  location : Option Location
deriving DecidableEq

/-- Embeds one iteration of the `for i in transformers` loop in `main`:
skip on missing/incomplete location (`i.get("location", {})` falsy, or
`lat`/`lng` absent), fetch weather and skip on `None`/empty, run the two
set queries, reconcile, and tag the reconciled rows with the transformer id.
The contribution of a skipped transformer is `[]`. -/
def processOne (fW : Int → Int → Except Unit (Option WeatherDF))
    (fE fM : Nat → List Nat → Except Unit (Finset (List Char)))
    (fmt : Nat → List Char) (t : Transformer) :
    Except Unit (List WriteRow) :=
  match t.location with
  | none => .ok []
  | some loc =>
    match loc.lat, loc.lng with
    | some lat, some lng =>
      (fW lat lng).bind fun dfo =>
        match dfo with
        | none => .ok []
        | some df =>
          if df.times.isEmpty then .ok []
          else
            (fE t.id df.times).bind fun existing_ts =>
              (fM t.id df.times).bind fun missing_ts =>
                let filtered := (filter_to_update fmt df existing_ts missing_ts).2
                if filtered.times.isEmpty then .ok []
                else
                  .ok ((filtered.times.zip filtered.temps).map
                    (fun p => { transformer_id := t.id, time := p.1,
                                ambient_temperature := p.2 }))
    | _, _ => .ok []

/-- Embeds the whole transformer loop of `main`: the per-transformer
contributions in list order, concatenated (`all_dfs` + `pd.concat`); any
uncaught exception in a loop iteration aborts the run. -/
def runAll (fW : Int → Int → Except Unit (Option WeatherDF))
    (fE fM : Nat → List Nat → Except Unit (Finset (List Char)))
    (fmt : Nat → List Char) : List Transformer → Except Unit (List WriteRow)
  | [] => .ok []
  | t :: ts =>
    (processOne fW fE fM fmt t).bind fun rows =>
      (runAll fW fE fM fmt ts).bind fun rest => .ok (rows ++ rest)

/-- The loop body of `main` under oracles that never raise: the same
computation as `processOne` with every call returning normally. -/
def processOnePure (gW : Int → Int → Option WeatherDF)
    (gE gM : Nat → List Nat → Finset (List Char)) (fmt : Nat → List Char)
    (t : Transformer) : List WriteRow :=
  match t.location with
  | none => []
  | some loc =>
    match loc.lat, loc.lng with
    | some lat, some lng =>
      match gW lat lng with
      | none => []
      | some df =>
        if df.times.isEmpty then []
        else
          let filtered := (filter_to_update fmt df (gE t.id df.times)
            (gM t.id df.times)).2
          if filtered.times.isEmpty then []
          else (filtered.times.zip filtered.temps).map
            (fun p => { transformer_id := t.id, time := p.1,
                        ambient_temperature := p.2 })
    | _, _ => []

theorem processOne_no_raise (gW : Int → Int → Option WeatherDF)
    (gE gM : Nat → List Nat → Finset (List Char)) (fmt : Nat → List Char)
    (t : Transformer) :
    processOne (fun a b => .ok (gW a b)) (fun a b => .ok (gE a b))
      (fun a b => .ok (gM a b)) fmt t =
      .ok (processOnePure gW gE gM fmt t) := by
  obtain ⟨tid, tloc⟩ := t
  cases tloc with
  | none => rfl
  | some loc =>
    obtain ⟨olat, olng⟩ := loc
    cases olat with
    | none => rfl
    | some lat =>
      cases olng with
      | none => rfl
      | some lng =>
        cases hdf : gW lat lng with
        | none => simp [processOne, processOnePure, hdf, Except.bind]
        | some df =>
          by_cases hemp : df.times.isEmpty <;>
            by_cases hfil : ((filter_to_update fmt df (gE tid df.times)
              (gM tid df.times)).2).times.isEmpty <;>
            simp [processOne, processOnePure, hdf, hemp, hfil, Except.bind]

/-- C5 counterexample: a raised store-query exception for one transformer
does not merely skip that transformer. Concretely, with two transformers of
which only the first's existing-set query raises, the whole run aborts with
the exception (`.error ()`), whereas the run restricted to the second
transformer alone succeeds and produces its write row — so the failure is
not contained to the failing transformer and the remaining transformer is
never processed. -/
theorem c5_counterexample_query_failure_aborts_run :
    runAll
        (fun _ _ => .ok (some { times := [7], temps := [21], tzAware := false,
                                iso_col := none }))
        (fun tid _ => if tid = 1 then .error () else .ok {['A']})
        (fun _ _ => .ok {['A']})
        (fun _ => ['A'])
        [{ id := 1, location := some { lat := some 0, lng := some 0 } },
         { id := 2, location := some { lat := some 0, lng := some 0 } }] =
      .error () ∧
    runAll
        (fun _ _ => .ok (some { times := [7], temps := [21], tzAware := false,
                                iso_col := none }))
        (fun tid _ => if tid = 1 then .error () else .ok {['A']})
        (fun _ _ => .ok {['A']})
        (fun _ => ['A'])
        [{ id := 2, location := some { lat := some 0, lng := some 0 } }] =
      .ok [{ transformer_id := 2, time := 7, ambient_temperature := 21 }] := by
  constructor <;> rfl

/-- C5 amended: a per-transformer fetch or query failure that manifests as a
normal "no data" return is recoverable and the run processes every
transformer — under oracles that never raise, the run succeeds and returns
the concatenation of all per-transformer contributions — but an exception
raised during a transformer's fetch or store queries propagates out of the
uncaught loop body and aborts the whole run. -/
theorem c5_per_transformer_failure :
    (∀ (gW : Int → Int → Option WeatherDF)
        (gE gM : Nat → List Nat → Finset (List Char)) (fmt : Nat → List Char)
        (ts : List Transformer),
      runAll (fun a b => .ok (gW a b)) (fun a b => .ok (gE a b))
          (fun a b => .ok (gM a b)) fmt ts =
        .ok ((ts.map (processOnePure gW gE gM fmt)).flatten)) ∧
    (∀ (fW : Int → Int → Except Unit (Option WeatherDF))
        (fE fM : Nat → List Nat → Except Unit (Finset (List Char)))
        (fmt : Nat → List Char) (t : Transformer) (ts : List Transformer),
      processOne fW fE fM fmt t = .error () →
      runAll fW fE fM fmt (t :: ts) = .error ()) := by
  constructor
  · intro gW gE gM fmt ts
    induction ts with
    | nil => rfl
    | cons t ts ih =>
      simp [runAll, processOne_no_raise, ih, Except.bind]
  · intro fW fE fM fmt t ts h
    simp [runAll, h, Except.bind]

theorem c5_per_transformer_failure_witness :
    runAll (fun _ _ => .ok (some { times := [7], temps := [21],
                                   tzAware := false, iso_col := none }))
        (fun _ _ => .error ()) (fun _ _ => .ok ∅) (fun _ => ['A'])
        [{ id := 3, location := some { lat := some 1, lng := some 2 } },
         { id := 4, location := none }] =
      .error () :=
  c5_per_transformer_failure.2 _ _ _ _ _ _ rfl

/-- C8: a transformer whose location is absent, or whose location lacks
`lat` or `lng`, is skipped silently: for every choice of weather-fetch and
store-query oracles the loop body returns `.ok []` — no fetch or query
influences the result (none is issued), the contribution to the write
phase is empty, and the outcome is a normal return, not an error. -/
theorem c8_missing_location_silent_skip
    (fW : Int → Int → Except Unit (Option WeatherDF))
    (fE fM : Nat → List Nat → Except Unit (Finset (List Char)))
    (fmt : Nat → List Char) (t : Transformer)
    (h : t.location = none ∨
      ∃ loc, t.location = some loc ∧ (loc.lat = none ∨ loc.lng = none)) :
    processOne fW fE fM fmt t = .ok [] := by
  obtain ⟨tid, tloc⟩ := t
  rcases h with h | ⟨⟨olat, olng⟩, h, hmiss⟩ <;> simp only at h <;> subst h
  · rfl
  · rcases hmiss with h1 | h1 <;> simp only at h1 <;> subst h1
    · rfl
    · cases olat <;> rfl

theorem c8_missing_location_silent_skip_witness :
    processOne (fun _ _ => .error ()) (fun _ _ => .error ())
        (fun _ _ => .error ()) (fun _ => [])
        { id := 5, location := some { lat := some 3, lng := none } } =
      .ok [] :=
  c8_missing_location_silent_skip _ _ _ _ _
    (Or.inr ⟨{ lat := some 3, lng := none }, rfl, Or.inr rfl⟩)
